import Mathlib

/-!
A shallow embedding of the PDF-analysis application (`src/app.py`): the text
extractor `extract_text_from_pdf`, the analysis client
`analyze_text_with_gemini` (payload construction plus a three-attempt retry
loop with exponential backoff), and the module-level pipeline and presenter.

Python strings are modelled as `List Char` where character-level operations
(slicing, strip) matter, and as `String` for opaque data values.  External
collaborators (the PDF parser `fitz`, the HTTP transport `requests.post`)
are modelled as explicit behaviour parameters, so every execution path of
the source is a value of the embedding.
-/

namespace PdfAnalysis

/-- The decoded inner JSON consumed by the presenter.  Each field models a
Python `dict.get` lookup: `none` is a missing key. -/
structure AnalysisResult where
  summary : Option String
  keywords : Option (List String)
  sentiment : Option String
  language : Option String
deriving DecidableEq, Repr

/-! ## Payload construction (`app.py` lines 39-64) -/

/-- One element of the `parts` list in the request payload. -/
structure Part where
  text : List Char
deriving DecidableEq, Repr

/-- One element of the `contents` list in the request payload. -/
structure Content where
  parts : List Part
deriving DecidableEq, Repr

/-- One property entry of the response schema (name, type, optional items
type for arrays, description). -/
structure SchemaProperty where
  propName : String
  propType : String
  itemsType : Option String
  description : String
deriving DecidableEq, Repr

/-- The `responseSchema` object of the request payload. -/
structure ResponseSchema where
  schemaType : String
  properties : List SchemaProperty
  required : List String
deriving DecidableEq, Repr

/-- The `generationConfig` object of the request payload. -/
structure GenerationConfig where
  responseMimeType : String
  responseSchema : ResponseSchema
deriving DecidableEq, Repr

/-- The JSON body POSTed to the model endpoint (`payload` in the source). -/
structure Payload where
  contents : List Content
  generationConfig : GenerationConfig
deriving DecidableEq, Repr

/-- The fixed instruction text preceding the document text in the prompt
(the f-string at `app.py` line 44, up to the embedded text). -/
def promptHead : String :=
  "Analyze the following text from a document. Provide a concise summary, extract 5-7 key topics or keywords, determine the overall sentiment (e.g., Positive, Negative, Neutral), and identify the language of the text.\n\nText: \""

/-- The fixed response schema (`app.py` lines 49-62). -/
def geminiSchema : ResponseSchema :=
  { schemaType := "OBJECT"
    properties :=
      [ ⟨"summary", "STRING", none, "A concise summary of the text."⟩,
        ⟨"keywords", "ARRAY", some "STRING", "An array of 5 to 7 key topics or keywords."⟩,
        ⟨"sentiment", "STRING", none, "The overall sentiment (e.g., Positive, Negative, Neutral)."⟩,
        ⟨"language", "STRING", none, "The detected language of the text."⟩ ]
    required := ["summary", "keywords", "sentiment", "language"] }

/-- `app.py` lines 39-64: truncate the input to its first 15000 characters
(`text[:15000]`) and embed it in the prompt between `promptHead` and a
closing quote, together with the fixed generation config. -/
def build_payload (text : List Char) : Payload :=
  let truncated_text := text.take 15000
  { contents := [{ parts := [{ text := promptHead.data ++ truncated_text ++ ['\"'] }] }]
    generationConfig :=
      { responseMimeType := "application/json"
        responseSchema := geminiSchema } }

/-! ## Transport model and retry loop (`app.py` lines 69-92) -/

/-- The body of an HTTP response that arrived with a success status and
parsed as JSON, classified by how the navigation
`result["candidates"][0]["content"]["parts"][0]["text"]` plays out:
* `noCandidatesKey`: `"candidates" not in result` (the `else` branch);
* `navigationError`: a `KeyError`/`IndexError` while navigating (e.g. an
  empty candidate list);
* `emptyText`: the navigation succeeds but the text is falsy (the `else`
  branch);
* `badInnerJson`: `json.loads` on the inner text raises `JSONDecodeError`;
* `goodInnerJson a`: the inner text decodes to `a`. -/
inductive ApiResponse where
  | noCandidatesKey
  | navigationError
  | emptyText
  | badInnerJson
  | goodInnerJson (a : AnalysisResult)
deriving DecidableEq, Repr

/-- The outcome of one `requests.post` attempt: either a transport-level
failure (`requests.exceptions.RequestException`: connection error, timeout,
or `raise_for_status` on a non-2xx status), or a success-status response
with a parsed JSON body. -/
inductive Attempt where
  | transportError
  | response (body : ApiResponse)
deriving DecidableEq, Repr

/-- What the attempt body of `app.py` lines 75-80 and 88-90 returns once a
success-status response is in hand: the decoded inner JSON on the good
path, `None` on every content/shape defect. -/
def handleResponse : ApiResponse → Option AnalysisResult
  | .goodInnerJson a => some a
  | _ => none

/-- A shape defect: any parsed success-status body other than one carrying
decodable inner JSON. -/
def isShapeDefect : ApiResponse → Bool
  | .goodInnerJson _ => false
  | _ => true

/-- The observable behaviour of one run of the retry loop: how many HTTP
calls were issued, the backoff sleeps in chronological order, and the
returned value (`none` is the failure signal). -/
structure ClientTrace where
  calls : Nat
  sleeps : List Nat
  result : Option AnalysisResult
deriving DecidableEq, Repr

/-- The loop `for i in range(3)` of `app.py` lines 69-92, over the list of
remaining loop indices.  `t` gives the outcome of the attempt at each
index; `calls` and `sleeps` (reversed accumulator) record the trace so
far.  On a transport error at index `i < 2` the loop sleeps `2 ^ i` and
continues; at index 2 it returns `None`.  Any parsed response is terminal. -/
def retryLoop (t : Nat → Attempt) : List Nat → Nat → List Nat → ClientTrace
  | [], calls, sleeps => ⟨calls, sleeps.reverse, none⟩
  | i :: rest, calls, sleeps =>
    match t i with
    | .response b => ⟨calls + 1, sleeps.reverse, handleResponse b⟩
    | .transportError =>
      if i < 2 then retryLoop t rest (calls + 1) (2 ^ i :: sleeps)
      else ⟨calls + 1, sleeps.reverse, none⟩

/-- `analyze_text_with_gemini` (`app.py` lines 37-92): build the payload
from the input text, then run the three-attempt retry loop against the
transport `t`.  Returns the payload that every attempt POSTs and the
observable trace of the loop. -/
def analyze_text_with_gemini (text : List Char) (t : Nat → Attempt) :
    Payload × ClientTrace :=
  (build_payload text, retryLoop t [0, 1, 2] 0 [])

/-! ## Text extractor (`app.py` lines 22-35) -/

/-- The behaviour of one page of an opened document under
`load_page(page_num)` followed by `page.get_text()`: either the page's
plain text, or a raised exception with message `msg`. -/
inductive PageBehavior where
  | ok (pageText : List Char)
  | raises (msg : String)
deriving DecidableEq, Repr

/-- The behaviour of the external parsing collaborator on the uploaded
bytes: `fitz.open` either raises, or yields a document whose pages behave
as listed (in page order). -/
inductive FitzOpen where
  | raises (msg : String)
  | doc (pages : List PageBehavior)
deriving DecidableEq, Repr

/-- The observable behaviour of one run of `extract_text_from_pdf`:
the returned value (`none` is the failure signal), the `st.error` message
shown if any, whether a document handle was opened, and whether
`pdf_document.close()` ran before returning. -/
structure ExtractTrace where
  result : Option (List Char)
  errorShown : Option String
  opened : Bool
  closed : Bool
deriving DecidableEq, Repr

/-- The page loop of `app.py` lines 28-30: concatenate each page's text in
order; the first page whose load or text rendering raises aborts the loop
with that exception. -/
def readPages : List PageBehavior → List Char → Except String (List Char)
  | [], acc => .ok acc
  | .ok t :: rest, acc => readPages rest (acc ++ t)
  | .raises m :: _, _ => .error m

/-- `extract_text_from_pdf` (`app.py` lines 22-35), as a function of the
collaborator's behaviour.  A raised exception anywhere inside the `try`
block is caught, shown as `st.error("Error reading PDF file: ...")`, and
turned into a `None` return.  `pdf_document.close()` is executed only on
the path that completes the page loop. -/
def extract_text_from_pdf (collab : FitzOpen) : ExtractTrace :=
  match collab with
  | .raises m =>
    { result := none, errorShown := some ("Error reading PDF file: " ++ m)
      opened := false, closed := false }
  | .doc pages =>
    match readPages pages [] with
    | .ok text =>
      { result := some text, errorShown := none, opened := true, closed := true }
    | .error m =>
      { result := none, errorShown := some ("Error reading PDF file: " ++ m)
        opened := true, closed := false }

/-! ## Presenter (`app.py` lines 127-155) -/

/-- The keywords section of the results view: either the
"No keywords were extracted." message, or a row of `numCols` columns with
one highlighted keyword per column. -/
inductive KeywordsView where
  | noKeywordsMsg
  | columns (numCols : Nat) (items : List String)
deriving DecidableEq, Repr

/-- `app.py` lines 128-137: `keywords = analysis_result.get("keywords", [])`;
a truthy (non-empty) list is laid out in `len(keywords)` columns with one
`st.info(keyword)` per column, otherwise the "no keywords" message is
written. -/
def render_keywords (analysis_result : AnalysisResult) : KeywordsView :=
  let keywords := analysis_result.keywords.getD []
  if !keywords.isEmpty then
    let num_keywords := keywords.length
    .columns (if num_keywords > 0 then num_keywords else 1) keywords
  else
    .noKeywordsMsg

/-- The colour cue attached to the sentiment value. -/
inductive SentimentColor where
  | green
  | red
  | orange
deriving DecidableEq, Repr

/-- Python's `str.lower()`: lowercase each character. -/
def pyLower (s : String) : String := ⟨s.data.map Char.toLower⟩

/-- `app.py` lines 150-155: green when `sentiment.lower() == 'positive'`,
red when `sentiment.lower() == 'negative'`, orange otherwise. -/
def sentimentColor (sentiment : String) : SentimentColor :=
  if pyLower sentiment = "positive" then .green
  else if pyLower sentiment = "negative" then .red
  else .orange

/-- `app.py` line 149-155 as a function of the analysis result:
`sentiment = analysis_result.get('sentiment', 'N/A')`, then the colour
branch. -/
def render_sentiment (analysis_result : AnalysisResult) : SentimentColor :=
  sentimentColor (analysis_result.sentiment.getD "N/A")

/-! ## Module-level pipeline (`app.py` lines 108-158) -/

/-- Python's `str.strip()`: drop whitespace from both ends. -/
def pyStrip (l : List Char) : List Char :=
  ((l.dropWhile Char.isWhitespace).reverse.dropWhile Char.isWhitespace).reverse

/-- The observable behaviour of the pipeline after extraction: whether the
analysis client was invoked, how many HTTP calls it made, and whether the
"Could not extract enough text" warning was shown. -/
structure PipelineTrace where
  clientInvoked : Bool
  httpCalls : Nat
  warnedInsufficient : Bool
deriving DecidableEq, Repr

/-- `app.py` lines 111-158 from the point where extraction has produced
`document_text`: the guard `if document_text and len(document_text.strip()) > 50`
(Python truthiness: `None` and the empty string are falsy, and `and`
short-circuits) decides between invoking `analyze_text_with_gemini` on the
full extracted text and showing the insufficient-text warning. -/
def run_pipeline (document_text : Option (List Char)) (t : Nat → Attempt) :
    PipelineTrace :=
  match document_text with
  | none => { clientInvoked := false, httpCalls := 0, warnedInsufficient := true }
  | some txt =>
    if txt.isEmpty then
      { clientInvoked := false, httpCalls := 0, warnedInsufficient := true }
    else if (pyStrip txt).length > 50 then
      { clientInvoked := true
        httpCalls := (analyze_text_with_gemini txt t).2.calls
        warnedInsufficient := false }
    else
      { clientInvoked := false, httpCalls := 0, warnedInsufficient := true }

/-! ## Concrete behaviours used by the witnesses -/

/-- A concrete decoded analysis result. -/
def sampleResult : AnalysisResult :=
  { summary := some "A short summary."
    keywords := some ["alpha", "beta"]
    sentiment := some "Positive"
    language := some "English" }

/-- A transport that fails on attempts 0 and 1 and succeeds on attempt 2. -/
def failTwiceTransport : Nat → Attempt :=
  fun i => if i < 2 then .transportError else .response (.goodInnerJson sampleResult)

/-- A transport that fails on every attempt. -/
def allFailTransport : Nat → Attempt := fun _ => .transportError

/-- A transport that fails on attempt 0 and then returns a success-status
response whose body has no `candidates` key. -/
def shapeDefectTransport : Nat → Attempt :=
  fun i => if i = 0 then .transportError else .response .noCandidatesKey

/-- A transport that immediately returns a well-shaped response. -/
def immediateSuccessTransport : Nat → Attempt :=
  fun _ => .response (.goodInnerJson sampleResult)

/-! ## Theorems -/

/-- Claim C1: the retry policy is up to 3 total attempts; after a transport
failure on attempt `i ∈ {0, 1}` the client sleeps `2 ^ i` (1 then 2) before
the next attempt, and a transport failure on the 3rd attempt is terminal.
A transport failing twice then succeeding yields exactly 3 calls, sleeps
`[1, 2]`, and the successful result; a transport failing all 3 times yields
exactly 3 calls, sleeps `[1, 2]`, and the failure signal. -/
theorem retry_policy_three_attempts (text : List Char) (t : Nat → Attempt)
    (a : AnalysisResult) :
    (t 0 = .transportError → t 1 = .transportError →
      t 2 = .response (.goodInnerJson a) →
      (analyze_text_with_gemini text t).2 = ⟨3, [1, 2], some a⟩) ∧
    ((∀ i, i < 3 → t i = .transportError) →
      (analyze_text_with_gemini text t).2 = ⟨3, [1, 2], none⟩) := by
  constructor
  · intro h0 h1 h2
    simp [analyze_text_with_gemini, retryLoop, h0, h1, h2, handleResponse]
  · intro h
    simp [analyze_text_with_gemini, retryLoop, h 0 (by norm_num), h 1 (by norm_num),
      h 2 (by norm_num)]

/-- Witness for C1: the two retry-policy scenarios at concrete transports. -/
theorem retry_policy_three_attempts_witness :
    (analyze_text_with_gemini ['h', 'i'] failTwiceTransport).2 = ⟨3, [1, 2], some sampleResult⟩ ∧
    (analyze_text_with_gemini ['h', 'i'] allFailTransport).2 = ⟨3, [1, 2], none⟩ :=
  ⟨(retry_policy_three_attempts ['h', 'i'] failTwiceTransport sampleResult).1 rfl rfl rfl,
   (retry_policy_three_attempts ['h', 'i'] allFailTransport sampleResult).2 (fun _ _ => rfl)⟩

/-- Claim C2: a success-status response with a content/shape defect
(missing or empty candidate list, missing text content, or inner-JSON parse
error), received on the first attempt that is not a transport failure,
makes the client return the failure signal immediately: the call count is
exactly that attempt's, and no backoff sleep follows it. -/
theorem shape_error_terminal (text : List Char) (t : Nat → Attempt) (i : Nat)
    (b : ApiResponse) (hi : i < 3) (hprev : ∀ j, j < i → t j = .transportError)
    (hresp : t i = .response b) (hdef : isShapeDefect b = true) :
    (analyze_text_with_gemini text t).2 =
      ⟨i + 1, (List.range i).map (fun j => 2 ^ j), none⟩ := by
  have hb : handleResponse b = none := by
    cases b <;> simp_all [isShapeDefect, handleResponse]
  interval_cases i
  · simp [analyze_text_with_gemini, retryLoop, hresp, hb]
  · simp [analyze_text_with_gemini, retryLoop, hprev 0 (by norm_num), hresp, hb,
      List.range_succ]
  · simp [analyze_text_with_gemini, retryLoop, hprev 0 (by norm_num),
      hprev 1 (by norm_num), hresp, hb, List.range_succ]

/-- Witness for C2: a transport failure, then a body with no candidates:
2 calls, one sleep of 1, failure signal. -/
theorem shape_error_terminal_witness :
    (analyze_text_with_gemini ['h', 'i'] shapeDefectTransport).2 = ⟨2, [1], none⟩ := by
  have h := shape_error_terminal ['h', 'i'] shapeDefectTransport 1 .noCandidatesKey
    (by norm_num) (fun j hj => by interval_cases j; rfl) rfl rfl
  simpa [List.range_succ] using h

/-- Claim C10: once an attempt receives a success-status response whose
body parses as JSON, the client returns during that same attempt — the
call count is that attempt's index plus one, the sleeps are exactly the
backoffs `2 ^ j` for the transport failures at the earlier indices `j`
(all of which are 0 or 1), and the returned value is decided by that one
response body. -/
theorem single_response_consumed (text : List Char) (t : Nat → Attempt) (i : Nat)
    (b : ApiResponse) (hi : i < 3) (hprev : ∀ j, j < i → t j = .transportError)
    (hresp : t i = .response b) :
    (analyze_text_with_gemini text t).2 =
      ⟨i + 1, (List.range i).map (fun j => 2 ^ j), handleResponse b⟩ := by
  interval_cases i
  · simp [analyze_text_with_gemini, retryLoop, hresp]
  · simp [analyze_text_with_gemini, retryLoop, hprev 0 (by norm_num), hresp,
      List.range_succ]
  · simp [analyze_text_with_gemini, retryLoop, hprev 0 (by norm_num),
      hprev 1 (by norm_num), hresp, List.range_succ]

/-- Witness for C10: an immediately well-shaped response: 1 call, no
sleeps, the decoded result. -/
theorem single_response_consumed_witness :
    (analyze_text_with_gemini ['h', 'i'] immediateSuccessTransport).2 =
      ⟨1, [], some sampleResult⟩ := by
  have h := single_response_consumed ['h', 'i'] immediateSuccessTransport 0
    (.goodInnerJson sampleResult) (by norm_num) (fun j hj => absurd hj (by omega)) rfl
  simpa [handleResponse] using h

/-- Claim C3: when extraction fails (`None`) or the extracted text has at
most 50 characters after stripping whitespace, the pipeline shows the
insufficient-text warning and never invokes the analysis client, so no
HTTP call is issued. -/
theorem insufficient_text_halts (document_text : Option (List Char))
    (t : Nat → Attempt)
    (h : document_text = none ∨
      ∃ txt, document_text = some txt ∧ (pyStrip txt).length ≤ 50) :
    run_pipeline document_text t =
      { clientInvoked := false, httpCalls := 0, warnedInsufficient := true } := by
  rcases h with h | ⟨txt, rfl, hlen⟩
  · subst h; rfl
  · simp only [run_pipeline]
    split
    · rfl
    · rw [if_neg (by omega)]

/-- Witness for C3: a 2-character extraction halts with the warning and
zero HTTP calls. -/
theorem insufficient_text_halts_witness :
    run_pipeline (some ['h', 'i']) allFailTransport =
      { clientInvoked := false, httpCalls := 0, warnedInsufficient := true } :=
  insufficient_text_halts (some ['h', 'i']) allFailTransport
    (Or.inr ⟨['h', 'i'], rfl, by decide⟩)

/-- Claim C4: an input longer than 15000 characters is truncated to exactly
its first 15000 characters — a hard cutoff — and the request payload embeds
exactly those characters, unmodified, between the fixed prompt head and the
closing quote. -/
theorem truncation_first_15000 (text : List Char) (h : 15000 < text.length) :
    (build_payload text).contents =
      [{ parts := [{ text := promptHead.data ++ text.take 15000 ++ ['\"'] }] }] ∧
    (text.take 15000).length = 15000 ∧
    text.take 15000 ++ text.drop 15000 = text := by
  refine ⟨rfl, ?_, List.take_append_drop _ _⟩
  rw [List.length_take]
  omega

/-- Witness for C4: a 15001-character input. -/
theorem truncation_first_15000_witness :
    15000 < (List.replicate 15001 'a').length ∧
    ((build_payload (List.replicate 15001 'a')).contents =
      [{ parts := [{ text := promptHead.data ++
          (List.replicate 15001 'a').take 15000 ++ ['\"'] }] }] ∧
    ((List.replicate 15001 'a').take 15000).length = 15000 ∧
    (List.replicate 15001 'a').take 15000 ++ (List.replicate 15001 'a').drop 15000 =
      List.replicate 15001 'a') :=
  have h : 15000 < (List.replicate 15001 'a').length := by
    rw [List.length_replicate]; omega
  ⟨h, truncation_first_15000 (List.replicate 15001 'a') h⟩

/-- Claim C9: payload construction is deterministic and depends only on the
first 15000 characters of the input: texts agreeing on their first 15000
characters produce identical payloads, and the schema requires exactly the
fields summary, keywords, sentiment and language. -/
theorem payload_depends_only_on_first_15000 (t₁ t₂ : List Char)
    (h : t₁.take 15000 = t₂.take 15000) :
    build_payload t₁ = build_payload t₂ ∧
    (build_payload t₁).generationConfig.responseSchema.required =
      ["summary", "keywords", "sentiment", "language"] := by
  constructor
  · simp only [build_payload, h]
  · rfl

/-- Witness for C9: two texts differing only beyond index 15000 yield the
same payload. -/
theorem payload_depends_only_on_first_15000_witness :
    (List.replicate 15000 'a').take 15000 =
      (List.replicate 15000 'a' ++ ['b']).take 15000 ∧
    build_payload (List.replicate 15000 'a') =
      build_payload (List.replicate 15000 'a' ++ ['b']) :=
  have h : (List.replicate 15000 'a').take 15000 =
      (List.replicate 15000 'a' ++ ['b']).take 15000 := by
    rw [List.take_append_eq_append_take, List.length_replicate]
    norm_num
  ⟨h, (payload_depends_only_on_first_15000 _ _ h).1⟩

/-- Claim C5: whenever the parsing collaborator raises — at open or while
reading any page — the extractor returns the failure signal `none`
together with a descriptive error message, and never propagates the
exception (in the embedding, every collaborator behaviour yields a
trace). -/
theorem extractor_signals_failure :
    (∀ m, extract_text_from_pdf (.raises m) =
      { result := none, errorShown := some ("Error reading PDF file: " ++ m)
        opened := false, closed := false }) ∧
    (∀ pages m, readPages pages [] = .error m →
      extract_text_from_pdf (.doc pages) =
        { result := none, errorShown := some ("Error reading PDF file: " ++ m)
          opened := true, closed := false }) := by
  refine ⟨fun m => rfl, fun pages m h => ?_⟩
  simp [extract_text_from_pdf, h]

/-- Witness for C5: a document whose second page raises. -/
theorem extractor_signals_failure_witness :
    extract_text_from_pdf (.doc [.ok ['x'], .raises "bad xref"]) =
      { result := none, errorShown := some ("Error reading PDF file: " ++ "bad xref")
        opened := true, closed := false } :=
  extractor_signals_failure.2 [.ok ['x'], .raises "bad xref"] "bad xref" rfl

/-- Claim C6 evaluated at a failing input: when a page raises after the
document was opened, `extract_text_from_pdf` returns with the handle still
open (`closed = false`), contradicting the claim that every execution path
closes the handle before returning — the `close()` call at `app.py` line 31
is skipped by the `except` path. -/
theorem extractor_leaves_handle_open_on_page_error :
    extract_text_from_pdf (.doc [.raises "cannot load page"]) =
      { result := none
        errorShown := some ("Error reading PDF file: " ++ "cannot load page")
        opened := true, closed := false } := rfl

/-- Claim C7: the sentiment colour is a function of the sentiment string up
to case — values lowercasing to "positive" are green, to "negative" red,
anything else orange — so "Positive", "POSITIVE" and "positive" coincide. -/
theorem sentiment_color_case_insensitive :
    (∀ s, pyLower s = "positive" → sentimentColor s = .green) ∧
    (∀ s, pyLower s = "negative" → sentimentColor s = .red) ∧
    (∀ s, pyLower s ≠ "positive" → pyLower s ≠ "negative" →
      sentimentColor s = .orange) ∧
    (∀ s₁ s₂, pyLower s₁ = pyLower s₂ → sentimentColor s₁ = sentimentColor s₂) ∧
    sentimentColor "Positive" = .green ∧
    sentimentColor "POSITIVE" = .green ∧
    sentimentColor "positive" = .green := by
  refine ⟨fun s h => ?_, fun s h => ?_, fun s h1 h2 => ?_, fun s₁ s₂ h => ?_, ?_, ?_, ?_⟩
  · simp [sentimentColor, h]
  · simp [sentimentColor, h]
  · simp [sentimentColor, h1, h2]
  · simp [sentimentColor, h]
  · decide
  · decide
  · decide

/-- Witness for C7: a mixed-case positive value is green, and the two
casings of "positive" get the same colour. -/
theorem sentiment_color_case_insensitive_witness :
    sentimentColor "PoSiTiVe" = .green ∧
    sentimentColor "Positive" = sentimentColor "POSITIVE" :=
  ⟨sentiment_color_case_insensitive.1 "PoSiTiVe" (by decide),
   sentiment_color_case_insensitive.2.2.2.1 "Positive" "POSITIVE" (by decide)⟩

/-- Claim C8: a result with a missing `keywords` field or an empty keyword
list renders the "no keywords were extracted" message (no crash), and a
non-empty list of keywords is laid out in exactly one column per keyword,
each keyword an individual item. -/
theorem keywords_rendering :
    (∀ r : AnalysisResult, r.keywords = none → render_keywords r = .noKeywordsMsg) ∧
    (∀ r : AnalysisResult, r.keywords = some [] → render_keywords r = .noKeywordsMsg) ∧
    (∀ r kws, r.keywords = some kws → kws ≠ [] →
      render_keywords r = .columns kws.length kws) := by
  refine ⟨fun r h => ?_, fun r h => ?_, fun r kws h hne => ?_⟩
  · simp [render_keywords, h]
  · simp [render_keywords, h]
  · have hpos : 0 < kws.length := List.length_pos.mpr hne
    simp [render_keywords, h, hne, hpos]

/-- Witness for C8: two keywords render as two columns. -/
theorem keywords_rendering_witness :
    render_keywords sampleResult = .columns 2 ["alpha", "beta"] := by
  have h := keywords_rendering.2.2 sampleResult ["alpha", "beta"] rfl (by simp)
  simpa using h

end PdfAnalysis
